import Mathlib

set_option maxRecDepth 20000

/-!
Shallow embedding of the `mcp-client-rs` protocol engine (src/protocol.rs)
and the multi-engine registry (src/protocol_manager.rs).

JSON values are modelled by an inductive `Json` type; numbers are integers
(every number appearing on the wire in the verified scenarios is an
integer).  Serialization follows serde_json's compact output; decoding
follows serde's derive semantics (unknown object fields are ignored,
`Option` fields default to `none` when missing or null, `serde(default)`
fields fall back to their default value).
-/

inductive Json where
  | null : Json
  | bool (b : Bool) : Json
  | num (n : Int) : Json
  | str (s : String) : Json
  | arr (items : List Json) : Json
  | obj (fields : List (String × Json)) : Json

/-- Hexadecimal digit for control-character escapes. -/
def hexDigitChar (n : Nat) : Char :=
  if n < 10 then Char.ofNat (48 + n) else Char.ofNat (87 + n)

/-- Escape a single character the way serde_json does. -/
def escapeChar (c : Char) : String :=
  if c = Char.ofNat 34 then "\\\""
  else if c = Char.ofNat 92 then "\\\\"
  else if c = Char.ofNat 10 then "\\n"
  else if c = Char.ofNat 9 then "\\t"
  else if c = Char.ofNat 13 then "\\r"
  else if c = Char.ofNat 8 then "\\b"
  else if c = Char.ofNat 12 then "\\f"
  else if c.toNat < 32 then
    "\\u00" ++ String.singleton (hexDigitChar (c.toNat / 16))
      ++ String.singleton (hexDigitChar (c.toNat % 16))
  else String.singleton c

/-- Render a JSON string literal, quotes included. -/
def escapeString (s : String) : String :=
  "\"" ++ String.join (s.toList.map escapeChar) ++ "\""

mutual

/-- Compact serialization, matching serde_json::to_string output. -/
def Json.serialize : Json → String
  | .null => "null"
  | .bool true => "true"
  | .bool false => "false"
  | .num n => toString n
  | .str s => escapeString s
  | .arr items => "[" ++ serializeItems items ++ "]"
  | .obj kvs => "\x7b" ++ serializeFields kvs ++ "\x7d"

/-- Comma-separated serialization of array elements. -/
def serializeItems : List Json → String
  | [] => ""
  | [j] => j.serialize
  | j :: rest => j.serialize ++ "," ++ serializeItems rest

/-- Comma-separated serialization of object members. -/
def serializeFields : List (String × Json) → String
  | [] => ""
  | [(k, v)] => escapeString k ++ ":" ++ v.serialize
  | (k, v) :: rest => escapeString k ++ ":" ++ v.serialize ++ "," ++ serializeFields rest

end

/-! JSON parsing (a recursive-descent reader with explicit fuel), covering
the grammar actually produced on the wire: objects, arrays, strings with
the standard escapes, integer numbers, booleans and null. -/

def isWsChar (c : Char) : Bool :=
  c = ' ' || c = Char.ofNat 9 || c = Char.ofNat 10 || c = Char.ofNat 13

def skipWs : List Char → List Char
  | [] => []
  | c :: cs => if isWsChar c then skipWs cs else c :: cs

def isDigitChar (c : Char) : Bool :=
  48 ≤ c.toNat && c.toNat ≤ 57

def hexVal (c : Char) : Option Nat :=
  if 48 ≤ c.toNat && c.toNat ≤ 57 then some (c.toNat - 48)
  else if 97 ≤ c.toNat && c.toNat ≤ 102 then some (c.toNat - 87)
  else if 65 ≤ c.toNat && c.toNat ≤ 70 then some (c.toNat - 55)
  else none

/-- Read a JSON string body, the opening quote already consumed. -/
def parseStrBody : List Char → List Char → Except String (String × List Char)
  | _, [] => .error "unterminated string"
  | acc, c :: cs =>
    if c = Char.ofNat 34 then .ok (String.mk acc.reverse, cs)
    else if c = Char.ofNat 92 then
      match cs with
      | [] => .error "unterminated escape"
      | e :: cs' =>
        if e = Char.ofNat 34 then parseStrBody (Char.ofNat 34 :: acc) cs'
        else if e = Char.ofNat 92 then parseStrBody (Char.ofNat 92 :: acc) cs'
        else if e = '/' then parseStrBody ('/' :: acc) cs'
        else if e = 'n' then parseStrBody (Char.ofNat 10 :: acc) cs'
        else if e = 't' then parseStrBody (Char.ofNat 9 :: acc) cs'
        else if e = 'r' then parseStrBody (Char.ofNat 13 :: acc) cs'
        else if e = 'b' then parseStrBody (Char.ofNat 8 :: acc) cs'
        else if e = 'f' then parseStrBody (Char.ofNat 12 :: acc) cs'
        else if e = 'u' then
          match cs' with
          | h1 :: h2 :: h3 :: h4 :: cs'' =>
            match hexVal h1, hexVal h2, hexVal h3, hexVal h4 with
            | some a, some b, some c', some d =>
              parseStrBody (Char.ofNat (a * 4096 + b * 256 + c' * 16 + d) :: acc) cs''
            | _, _, _, _ => .error "invalid unicode escape"
          | _ => .error "invalid unicode escape"
        else .error "invalid escape"
    else parseStrBody (c :: acc) cs

/-- Read the digits of a natural number. -/
def parseDigits : List Char → Nat → List Char → Except String (Nat × List Char)
  | [], _, _ => .error "expected digits"
  | c :: cs, acc, _ =>
    if isDigitChar c then
      match cs with
      | [] => .ok (acc * 10 + (c.toNat - 48), [])
      | c' :: _ =>
        if isDigitChar c' then parseDigits cs (acc * 10 + (c.toNat - 48)) []
        else .ok (acc * 10 + (c.toNat - 48), cs)
    else .error "expected digits"

mutual

/-- Parse one JSON value from the character stream. -/
def parseVal : Nat → List Char → Except String (Json × List Char)
  | 0, _ => .error "input too deeply nested"
  | fuel + 1, cs =>
    match skipWs cs with
    | [] => .error "unexpected end of input"
    | c :: rest =>
      if c = Char.ofNat 123 then
        match skipWs rest with
        | c' :: rest' =>
          if c' = Char.ofNat 125 then .ok (Json.obj [], rest')
          else
            match parseMembers fuel (c' :: rest') [] with
            | .ok (kvs, rest'') => .ok (Json.obj kvs, rest'')
            | .error e => .error e
        | [] => .error "unterminated object"
      else if c = '[' then
        match skipWs rest with
        | c' :: rest' =>
          if c' = ']' then .ok (Json.arr [], rest')
          else
            match parseElems fuel (c' :: rest') [] with
            | .ok (items, rest'') => .ok (Json.arr items, rest'')
            | .error e => .error e
        | [] => .error "unterminated array"
      else if c = Char.ofNat 34 then
        match parseStrBody [] rest with
        | .ok (s, rest') => .ok (Json.str s, rest')
        | .error e => .error e
      else if c = '-' then
        match parseDigits rest 0 [] with
        | .ok (n, rest') => .ok (Json.num (-(n : Int)), rest')
        | .error e => .error e
      else if isDigitChar c then
        match parseDigits (c :: rest) 0 [] with
        | .ok (n, rest') => .ok (Json.num (n : Int), rest')
        | .error e => .error e
      else if c = 't' then
        match rest with
        | 'r' :: 'u' :: 'e' :: rest' => .ok (Json.bool true, rest')
        | _ => .error "expected true"
      else if c = 'f' then
        match rest with
        | 'a' :: 'l' :: 's' :: 'e' :: rest' => .ok (Json.bool false, rest')
        | _ => .error "expected false"
      else if c = 'n' then
        match rest with
        | 'u' :: 'l' :: 'l' :: rest' => .ok (Json.null, rest')
        | _ => .error "expected null"
      else .error "unexpected character"

/-- Parse the members of an object, positioned at the start of a key. -/
def parseMembers : Nat → List Char → List (String × Json) →
    Except String (List (String × Json) × List Char)
  | 0, _, _ => .error "input too deeply nested"
  | fuel + 1, cs, acc =>
    match skipWs cs with
    | c :: rest =>
      if c = Char.ofNat 34 then
        match parseStrBody [] rest with
        | .error e => .error e
        | .ok (key, rest') =>
          match skipWs rest' with
          | ':' :: rest'' =>
            match parseVal fuel rest'' with
            | .error e => .error e
            | .ok (v, rest''') =>
              match skipWs rest''' with
              | ',' :: more => parseMembers fuel more ((key, v) :: acc)
              | d :: more =>
                if d = Char.ofNat 125 then .ok (((key, v) :: acc).reverse, more)
                else .error "expected comma or closing brace"
              | [] => .error "unterminated object"
          | _ => .error "expected colon"
      else .error "expected string key"
    | [] => .error "unterminated object"

/-- Parse the elements of an array, positioned at the start of a value. -/
def parseElems : Nat → List Char → List Json → Except String (List Json × List Char)
  | 0, _, _ => .error "input too deeply nested"
  | fuel + 1, cs, acc =>
    match parseVal fuel cs with
    | .error e => .error e
    | .ok (v, rest) =>
      match skipWs rest with
      | ',' :: more => parseElems fuel more (v :: acc)
      | ']' :: more => .ok ((v :: acc).reverse, more)
      | _ => .error "expected comma or closing bracket"

end

/-- Parse a complete JSON document, allowing trailing whitespace
(mirrors serde_json::from_str on a line read with its newline). -/
def Json.parse (s : String) : Except String Json :=
  match parseVal (2 * s.length + 8) s.toList with
  | .error e => .error e
  | .ok (j, rest) =>
    match skipWs rest with
    | [] => .ok j
    | _ => .error "trailing characters"

/-! Decoders mirroring the serde derives in src/protocol.rs.  Unknown
object fields are ignored (no deny_unknown_fields in the source); an
`Option` field is `none` when missing or null; a `serde(default)` field
falls back to its Default value when missing. -/

def getField (kvs : List (String × Json)) (k : String) : Option Json :=
  (kvs.find? (fun kv => kv.1 == k)).map (fun kv => kv.2)

def asObj : Json → Except String (List (String × Json))
  | .obj kvs => .ok kvs
  | _ => .error "expected object"

def asStr : Json → Except String String
  | .str s => .ok s
  | _ => .error "expected string"

def asBool : Json → Except String Bool
  | .bool b => .ok b
  | _ => .error "expected boolean"

def asArr : Json → Except String (List Json)
  | .arr items => .ok items
  | _ => .error "expected array"

/-- Decode a u64 (the request id field). -/
def asU64 : Json → Except String Nat
  | .num n => if 0 ≤ n ∧ n < 2 ^ 64 then .ok n.toNat else .error "u64 out of range"
  | _ => .error "expected u64"

/-- Decode a u32 (sampling max_tokens). -/
def asU32 : Json → Except String Nat
  | .num n => if 0 ≤ n ∧ n < 2 ^ 32 then .ok n.toNat else .error "u32 out of range"
  | _ => .error "expected u32"

/-- Decode an i32 (the error code field). -/
def asI32 : Json → Except String Int
  | .num n => if -(2 ^ 31) ≤ n ∧ n < 2 ^ 31 then .ok n else .error "i32 out of range"
  | _ => .error "expected i32"

/-- Required struct field. -/
def reqField (kvs : List (String × Json)) (k : String) : Except String Json :=
  match getField kvs k with
  | some v => .ok v
  | none => .error ("missing field " ++ k)

/-- Optional struct field of Rust type Option of alpha: absent or null
decodes to none, any other value must decode with f. -/
def optField (kvs : List (String × Json)) (k : String)
    (f : Json → Except String α) : Except String (Option α) :=
  match getField kvs k with
  | none => .ok none
  | some .null => .ok none
  | some v => (f v).map some

structure LoggingCapability where
  levels : List String

structure PromptsCapability where
  supports_custom : Bool

structure ResourcesCapability where
  supports_subscribe : Bool
  supports_delta : Bool

structure ToolsCapability where
  supports_streaming : Bool

structure SamplingCapability where
  max_tokens : Option Nat
  supported_methods : List String

structure ServerCapabilities where
  experimental : Option Json
  logging : Option LoggingCapability
  prompts : Option PromptsCapability
  resources : Option ResourcesCapability
  tools : Option ToolsCapability
  sampling : Option SamplingCapability

structure ServerInfo where
  name : String
  version : String

structure InitializeResponse where
  protocol_version : String
  capabilities : ServerCapabilities
  server_info : ServerInfo
  meta : Option (List (String × Json))

structure Tool where
  name : String
  description : String
  parameters : Json

structure ListToolsResponse where
  tools : List Tool

structure CallToolResponse where
  result : Json

structure Resource where
  uri : String
  resource_type : String

structure ResourcesListResponse where
  resources : List Resource
  next_cursor : Option String
  meta : Option (List (String × Json))

structure ResourceContents where
  uri : String
  content : String

structure ResourcesReadResponse where
  contents : List ResourceContents
  meta : Option (List (String × Json))

structure Prompt where
  id : String
  description : String

def LoggingCapability.fromJson (j : Json) : Except String LoggingCapability := do
  let kvs ← asObj j
  let lv ← reqField kvs "levels"
  let items ← asArr lv
  let levels ← items.mapM asStr
  return ⟨levels⟩

def PromptsCapability.fromJson (j : Json) : Except String PromptsCapability := do
  let kvs ← asObj j
  let v ← reqField kvs "supports_custom"
  let b ← asBool v
  return ⟨b⟩

def ResourcesCapability.fromJson (j : Json) : Except String ResourcesCapability := do
  let kvs ← asObj j
  let s ← reqField kvs "supports_subscribe"
  let bs ← asBool s
  let d ← reqField kvs "supports_delta"
  let bd ← asBool d
  return ⟨bs, bd⟩

def ToolsCapability.fromJson (j : Json) : Except String ToolsCapability := do
  let kvs ← asObj j
  match getField kvs "supports_streaming" with
  | none => return ⟨false⟩
  | some v => do
    let b ← asBool v
    return ⟨b⟩

def SamplingCapability.fromJson (j : Json) : Except String SamplingCapability := do
  let kvs ← asObj j
  let mt ← optField kvs "max_tokens" asU32
  let sm ← reqField kvs "supported_methods"
  let items ← asArr sm
  let methods ← items.mapM asStr
  return ⟨mt, methods⟩

def ServerCapabilities.fromJson (j : Json) : Except String ServerCapabilities := do
  let kvs ← asObj j
  let experimental ← optField kvs "experimental" (fun v => .ok v)
  let logging ← optField kvs "logging" LoggingCapability.fromJson
  let prompts ← optField kvs "prompts" PromptsCapability.fromJson
  let resources ← optField kvs "resources" ResourcesCapability.fromJson
  let tools ← optField kvs "tools" ToolsCapability.fromJson
  let sampling ← optField kvs "sampling" SamplingCapability.fromJson
  return ⟨experimental, logging, prompts, resources, tools, sampling⟩

def ServerInfo.fromJson (j : Json) : Except String ServerInfo := do
  let kvs ← asObj j
  let n ← reqField kvs "name"
  let name ← asStr n
  let v ← reqField kvs "version"
  let version ← asStr v
  return ⟨name, version⟩

def InitializeResponse.fromJson (j : Json) : Except String InitializeResponse := do
  let kvs ← asObj j
  let pv ← reqField kvs "protocolVersion"
  let protocol_version ← asStr pv
  let capsJson ← reqField kvs "capabilities"
  let capabilities ← ServerCapabilities.fromJson capsJson
  let siJson ← reqField kvs "serverInfo"
  let server_info ← ServerInfo.fromJson siJson
  let meta ← optField kvs "_meta" asObj
  return ⟨protocol_version, capabilities, server_info, meta⟩

def Tool.fromJson (j : Json) : Except String Tool := do
  let kvs ← asObj j
  let n ← reqField kvs "name"
  let name ← asStr n
  let d ← reqField kvs "description"
  let description ← asStr d
  let parameters ← reqField kvs "parameters"
  return ⟨name, description, parameters⟩

def ListToolsResponse.fromJson (j : Json) : Except String ListToolsResponse := do
  let kvs ← asObj j
  let t ← reqField kvs "tools"
  let items ← asArr t
  let tools ← items.mapM Tool.fromJson
  return ⟨tools⟩

def CallToolResponse.fromJson (j : Json) : Except String CallToolResponse := do
  let kvs ← asObj j
  let r ← reqField kvs "toolResult"
  return ⟨r⟩

def Resource.fromJson (j : Json) : Except String Resource := do
  let kvs ← asObj j
  let u ← reqField kvs "uri"
  let uri ← asStr u
  let t ← reqField kvs "type"
  let resource_type ← asStr t
  return ⟨uri, resource_type⟩

def ResourcesListResponse.fromJson (j : Json) : Except String ResourcesListResponse := do
  let kvs ← asObj j
  let r ← reqField kvs "resources"
  let items ← asArr r
  let resources ← items.mapM Resource.fromJson
  let next_cursor ← optField kvs "nextCursor" asStr
  let meta ← optField kvs "_meta" asObj
  return ⟨resources, next_cursor, meta⟩

def ResourceContents.fromJson (j : Json) : Except String ResourceContents := do
  let kvs ← asObj j
  let u ← reqField kvs "uri"
  let uri ← asStr u
  let c ← reqField kvs "content"
  let content ← asStr c
  return ⟨uri, content⟩

def ResourcesReadResponse.fromJson (j : Json) : Except String ResourcesReadResponse := do
  let kvs ← asObj j
  let c ← reqField kvs "contents"
  let items ← asArr c
  let contents ← items.mapM ResourceContents.fromJson
  let meta ← optField kvs "_meta" asObj
  return ⟨contents, meta⟩

def Prompt.fromJson (j : Json) : Except String Prompt := do
  let kvs ← asObj j
  let i ← reqField kvs "id"
  let id ← asStr i
  let d ← reqField kvs "description"
  let description ← asStr d
  return ⟨id, description⟩

def PromptList.fromJson (j : Json) : Except String (List Prompt) := do
  let items ← asArr j
  items.mapM Prompt.fromJson

/-! The protocol engine itself (src/protocol.rs).  The child process is
modelled as a transport holding the bytes written so far to its stdin and
the list of stdout lines not yet consumed; every operation threads the
engine state and the transport explicitly. -/

inductive RequestType where
  | Initialize
  | CallTool
  | ResourcesUnsubscribe
  | ResourcesSubscribe
  | ResourcesRead
  | ResourcesList
  | LoggingSetLevel
  | PromptsGet
  | PromptsList
  | CompletionComplete
  | Ping
  | ListTools
  | ListResourceTemplates
  | ListRoots
  deriving DecidableEq

def RequestType.as_str : RequestType → String
  | .Initialize => "initialize"
  | .CallTool => "tools/call"
  | .ResourcesUnsubscribe => "resources/unsubscribe"
  | .ResourcesSubscribe => "resources/subscribe"
  | .ResourcesRead => "resources/read"
  | .ResourcesList => "resources/list"
  | .LoggingSetLevel => "logging/setLevel"
  | .PromptsGet => "prompts/get"
  | .PromptsList => "prompts/list"
  | .CompletionComplete => "completion/complete"
  | .Ping => "ping"
  | .ListTools => "tools/list"
  | .ListResourceTemplates => "resources/templates/list"
  | .ListRoots => "roots/list"

inductive ServerCapability where
  | Experimental
  | Logging
  | Prompts
  | Resources
  | Tools
  | Sampling
  deriving DecidableEq

/-- The Debug rendering of a capability, as used by format in
check_capability. -/
def ServerCapability.debugStr : ServerCapability → String
  | .Experimental => "Experimental"
  | .Logging => "Logging"
  | .Prompts => "Prompts"
  | .Resources => "Resources"
  | .Tools => "Tools"
  | .Sampling => "Sampling"

inductive ClientError where
  | Io (msg : String)
  | InitializationFailed (msg : String)
  | ResourceError (msg : String)
  | ToolError (msg : String)
  | PromptError (msg : String)
  | CapabilityError (msg : String)
  | SerializationError (msg : String)
  | ProtocolError (msg : String)

structure JsonRpcRequest where
  jsonrpc : String
  id : Nat
  method : RequestType
  params : Json

def JsonRpcRequest.new (id : Nat) (method : RequestType) (params : Json) : JsonRpcRequest :=
  ⟨"2.0", id, method, params⟩

/-- Wire form of a request: serde serializes the fields in declaration
order, the method through its canonical string. -/
def JsonRpcRequest.toJson (r : JsonRpcRequest) : Json :=
  Json.obj [("jsonrpc", Json.str r.jsonrpc), ("id", Json.num (r.id : Int)),
    ("method", Json.str r.method.as_str), ("params", r.params)]

def JsonRpcRequest.serialize (r : JsonRpcRequest) : String :=
  r.toJson.serialize

structure JsonRpcError where
  code : Int
  message : String
  data : Option Json

inductive ResponseContent where
  | Success (result : Json)
  | Error (error : JsonRpcError)

structure JsonRpcResponse where
  jsonrpc : String
  id : Nat
  response : ResponseContent

def JsonRpcError.fromJson (j : Json) : Except String JsonRpcError := do
  let kvs ← asObj j
  let c ← reqField kvs "code"
  let code ← asI32 c
  let m ← reqField kvs "message"
  let message ← asStr m
  let data ← optField kvs "data" (fun v => .ok v)
  return ⟨code, message, data⟩

/-- Untagged-union decoding as serde performs it: the Success variant is
tried first and succeeds whenever a result member is present (any other
members are ignored); only then is the Error variant tried. -/
def ResponseContent.fromJson (kvs : List (String × Json)) : Except String ResponseContent :=
  match getField kvs "result" with
  | some v => .ok (.Success v)
  | none =>
    match getField kvs "error" with
    | some e =>
      match JsonRpcError.fromJson e with
      | .ok je => .ok (.Error je)
      | .error _ => .error "data did not match any variant of untagged enum ResponseContent"
    | none => .error "data did not match any variant of untagged enum ResponseContent"

def JsonRpcResponse.fromJson (j : Json) : Except String JsonRpcResponse := do
  let kvs ← asObj j
  let jr ← reqField kvs "jsonrpc"
  let jsonrpc ← asStr jr
  let i ← reqField kvs "id"
  let id ← asU64 i
  let response ← ResponseContent.fromJson kvs
  return ⟨jsonrpc, id, response⟩

/-- Parse one response line, serde_json::from_str composed with the
envelope decode. -/
def decodeResponseLine (line : String) : Except String JsonRpcResponse := do
  let j ← Json.parse line
  JsonRpcResponse.fromJson j

structure Transport where
  written : String
  stdoutLines : List String

/-- read_line on the buffered child stdout: the next pending line, or the
empty string at end of file. -/
def Transport.readLine (t : Transport) : String × Transport :=
  match t.stdoutLines with
  | [] => ("", t)
  | l :: ls => (l, { t with stdoutLines := ls })

structure Protocol where
  nextId : Nat
  capabilities : Option ServerCapabilities

def Protocol.capable (p : Protocol) (capability : ServerCapability) : Bool :=
  match p.capabilities with
  | some caps =>
    match capability with
    | .Experimental => caps.experimental.isSome
    | .Logging => caps.logging.isSome
    | .Prompts => caps.prompts.isSome
    | .Resources => caps.resources.isSome
    | .Tools => caps.tools.isSome
    | .Sampling => caps.sampling.isSome
  | none => false

def Protocol.check_capability (p : Protocol) (capability : ServerCapability) :
    Except ClientError Unit :=
  if p.capable capability then .ok ()
  else .error (.CapabilityError
    ("Server does not support " ++ capability.debugStr ++ " capability"))

/-- fetch_add on the atomic id counter: returns the current value and
stores the wrapped successor. -/
def Protocol.next_id (p : Protocol) : Nat × Protocol :=
  (p.nextId, { p with nextId := (p.nextId + 1) % 2 ^ 64 })

/-- send_request: the request is serialized first; only when that
succeeds is the line written, flushed, and one response line read and
decoded.  The serialization outcome is passed in explicitly (for the
request types of this crate it always succeeds). -/
def Protocol.send_request (t : Transport) (ser : Except String String) :
    Except ClientError JsonRpcResponse × Transport :=
  match ser with
  | .error e => (.error (.SerializationError e), t)
  | .ok message =>
    let t1 : Transport := { t with written := t.written ++ message ++ "\n" }
    let (line, t2) := t1.readLine
    match decodeResponseLine line with
    | .ok resp => (.ok resp, t2)
    | .error e => (.error (.ProtocolError ("Failed to parse response: " ++ e)), t2)

/-- list_prompts: gate on Prompts, then one request/response round trip. -/
def Protocol.list_prompts (p : Protocol) (t : Transport) :
    Except ClientError (List Prompt) × Protocol × Transport :=
  match p.check_capability .Prompts with
  | .error e => (.error e, p, t)
  | .ok _ =>
    let (id, p1) := p.next_id
    let request := JsonRpcRequest.new id .PromptsList (Json.obj [])
    let (res, t1) := Protocol.send_request t (.ok request.serialize)
    match res with
    | .error e => (.error e, p1, t1)
    | .ok resp =>
      match resp.response with
      | .Success result =>
        match PromptList.fromJson result with
        | .ok prompts => (.ok prompts, p1, t1)
        | .error e =>
          (.error (.PromptError ("Failed to parse prompts list: " ++ e)), p1, t1)
      | .Error _ => (.error (.PromptError "Failed to list prompts"), p1, t1)

/-- list_resources: gate on Resources, then one round trip. -/
def Protocol.list_resources (p : Protocol) (t : Transport) :
    Except ClientError ResourcesListResponse × Protocol × Transport :=
  match p.check_capability .Resources with
  | .error e => (.error e, p, t)
  | .ok _ =>
    let (id, p1) := p.next_id
    let request := JsonRpcRequest.new id .ResourcesList (Json.obj [])
    let (res, t1) := Protocol.send_request t (.ok request.serialize)
    match res with
    | .error e => (.error e, p1, t1)
    | .ok resp =>
      match resp.response with
      | .Success result =>
        match ResourcesListResponse.fromJson result with
        | .ok r => (.ok r, p1, t1)
        | .error e =>
          (.error (.ResourceError ("Failed to parse resources list: " ++ e)), p1, t1)
      | .Error _ => (.error (.ResourceError "Failed to list resources"), p1, t1)

/-- read_resources: gate on Resources, then one round trip with the uris
parameter object. -/
def Protocol.read_resources (p : Protocol) (t : Transport) (uris : List String) :
    Except ClientError ResourcesReadResponse × Protocol × Transport :=
  match p.check_capability .Resources with
  | .error e => (.error e, p, t)
  | .ok _ =>
    let (id, p1) := p.next_id
    let request := JsonRpcRequest.new id .ResourcesRead
      (Json.obj [("uris", Json.arr (uris.map Json.str))])
    let (res, t1) := Protocol.send_request t (.ok request.serialize)
    match res with
    | .error e => (.error e, p1, t1)
    | .ok resp =>
      match resp.response with
      | .Success result =>
        match ResourcesReadResponse.fromJson result with
        | .ok r => (.ok r, p1, t1)
        | .error e =>
          (.error (.ResourceError ("Failed to parse read resources response: " ++ e)), p1, t1)
      | .Error _ => (.error (.ResourceError "Failed to read resources"), p1, t1)

/-- list_tools: gate on Tools, then one round trip. -/
def Protocol.list_tools (p : Protocol) (t : Transport) :
    Except ClientError ListToolsResponse × Protocol × Transport :=
  match p.check_capability .Tools with
  | .error e => (.error e, p, t)
  | .ok _ =>
    let (id, p1) := p.next_id
    let request := JsonRpcRequest.new id .ListTools (Json.obj [])
    let (res, t1) := Protocol.send_request t (.ok request.serialize)
    match res with
    | .error e => (.error e, p1, t1)
    | .ok resp =>
      match resp.response with
      | .Success result =>
        match ListToolsResponse.fromJson result with
        | .ok r => (.ok r, p1, t1)
        | .error e => (.error (.ToolError ("Failed to parse tools list: " ++ e)), p1, t1)
      | .Error _ => (.error (.ToolError "Failed to list tools"), p1, t1)

/-- call_tool: gate on Tools, then one round trip with name and arguments
as the tool-call params. -/
def Protocol.call_tool (p : Protocol) (t : Transport) (name : String) (arguments : Json) :
    Except ClientError CallToolResponse × Protocol × Transport :=
  match p.check_capability .Tools with
  | .error e => (.error e, p, t)
  | .ok _ =>
    let (id, p1) := p.next_id
    let request := JsonRpcRequest.new id .CallTool
      (Json.obj [("name", Json.str name), ("arguments", arguments)])
    let (res, t1) := Protocol.send_request t (.ok request.serialize)
    match res with
    | .error e => (.error e, p1, t1)
    | .ok resp =>
      match resp.response with
      | .Success result =>
        match CallToolResponse.fromJson result with
        | .ok r => (.ok r, p1, t1)
        | .error e => (.error (.ToolError ("Failed to parse tool response: " ++ e)), p1, t1)
      | .Error _ => (.error (.ToolError "Failed to call tool"), p1, t1)

/-- initialize: sends the handshake request with the fixed client
identity and empty capabilities, then decodes the InitializeResponse
payload and stores its capabilities. -/
def Protocol.initialize (p : Protocol) (t : Transport) (version : String) :
    Except ClientError InitializeResponse × Protocol × Transport :=
  let init_params := Json.obj [("protocolVersion", Json.str version),
    ("capabilities", Json.obj []),
    ("clientInfo", Json.obj [("name", Json.str "test"), ("version", Json.str "0.1.0")])]
  let (id, p1) := p.next_id
  let init_request := JsonRpcRequest.new id .Initialize init_params
  let (res, t1) := Protocol.send_request t (.ok init_request.serialize)
  match res with
  | .error e => (.error e, p1, t1)
  | .ok resp =>
    match resp.response with
    | .Success result =>
      match InitializeResponse.fromJson result with
      | .ok ir => (.ok ir, { p1 with capabilities := some ir.capabilities }, t1)
      | .error e => (.error (.InitializationFailed e), p1, t1)
    | .Error _ => (.error (.InitializationFailed "Initialization failed"), p1, t1)

/-- Engine construction: spawn the transport (modelled by the lines the
child will emit on stdout), run the handshake, and only return an engine
when it succeeds. -/
def Protocol.new (version : String) (stdoutLines : List String) :
    Except ClientError (Protocol × Transport) :=
  let p : Protocol := { nextId := 0, capabilities := none }
  let t : Transport := { written := "", stdoutLines := stdoutLines }
  match Protocol.initialize p t version with
  | (.error e, _, _) => .error e
  | (.ok _, p1, t1) => .ok (p1, t1)

/-- The ids produced by k successive next_id calls on one engine. -/
def Protocol.idsFrom (p : Protocol) : Nat → List Nat
  | 0 => []
  | k + 1 =>
    let (id, p1) := p.next_id
    id :: p1.idsFrom k

/-! The multi-engine registry (src/protocol_manager.rs).  The HashMap
from client id to tool list is modelled as an association list in
insertion order; the spawning and tool fetching performed by
add_protocol are I/O and enter the model as the already-fetched values. -/

def filter_tools_by_name (tools : List Tool) (tool_names : List String) : List Tool :=
  tools.filter (fun tool => tool_names.contains tool.name)

def format_tools_for_prompt (tools : List Tool) (starting_index : Nat) : String :=
  String.join (tools.enum.map
    (fun it => toString (it.1 + starting_index) ++ ". " ++ it.2.name ++ ": "
      ++ it.2.description ++ "\n"))

structure ProtocolManager where
  tool_counter : Nat
  clients : List Protocol
  formatted_tools : List String
  client_tools : List (String × List Tool)

def ProtocolManager.new : ProtocolManager :=
  ⟨1, [], [], []⟩

def mapContainsKey (m : List (String × List Tool)) (k : String) : Bool :=
  m.any (fun kv => kv.1 == k)

def mapGet (m : List (String × List Tool)) (k : String) : Option (List Tool) :=
  (m.find? (fun kv => kv.1 == k)).map (fun kv => kv.2)

def mapInsert (m : List (String × List Tool)) (k : String) (v : List Tool) :
    List (String × List Tool) :=
  if mapContainsKey m k then
    m.map (fun kv => if kv.1 == k then (k, v) else kv)
  else m ++ [(k, v)]

/-- The state update performed by add_protocol after the engine has been
spawned and its tool list fetched: filter the tools when names were
requested, push the formatted listing at the current running counter,
advance the counter, and record the client. -/
def ProtocolManager.add_protocol (m : ProtocolManager) (client_id : String)
    (client : Protocol) (fetched_tools : List Tool)
    (tool_names : Option (List String)) : ProtocolManager :=
  let filtered_tools :=
    match tool_names with
    | some names => filter_tools_by_name fetched_tools names
    | none => fetched_tools
  { tool_counter := m.tool_counter + filtered_tools.length
    clients := m.clients ++ [client]
    formatted_tools := m.formatted_tools ++ [format_tools_for_prompt filtered_tools m.tool_counter]
    client_tools := mapInsert m.client_tools client_id filtered_tools }

/-- The tool selection used by get_tools_for_clients. -/
def ProtocolManager.selectedTools (m : ProtocolManager) (client_ids : Option (List String)) :
    List Tool :=
  match client_ids with
  | some ids => (ids.filterMap (fun id => mapGet m.client_tools id)).flatten
  | none => (m.client_tools.map (fun kv => kv.2)).flatten

def ProtocolManager.get_tools_for_clients (m : ProtocolManager)
    (client_ids : Option (List String)) : String :=
  format_tools_for_prompt (m.selectedTools client_ids) 1

/-- get_protocols: the some-branch enumerates the clients and filters
with a predicate that ignores the enumerated element, testing only
whether any requested id is a key of client_tools. -/
def ProtocolManager.get_protocols (m : ProtocolManager) (client_ids : Option (List String)) :
    List Protocol :=
  match client_ids with
  | some ids =>
    (m.clients.enum.filter
      (fun _ => ids.any (fun id => mapContainsKey m.client_tools id))).map
      (fun ip => ip.2)
  | none => m.clients

/-! Concrete values used by the verification scenarios. -/

/-- A fresh engine state: id counter at 0, no capabilities stored yet. -/
def pNone : Protocol := ⟨0, none⟩

def tEmpty : Transport := ⟨"", []⟩

/-- Capabilities advertising only tools. -/
def capsTools : ServerCapabilities := ⟨none, none, none, none, some ⟨false⟩, none⟩

/-- An initialized engine holding only the Tools capability, id counter at 1. -/
def pTools1 : Protocol := ⟨1, some capsTools⟩

/-- Capabilities with every optional field present. -/
def capsFull : ServerCapabilities :=
  ⟨some Json.null, some ⟨[]⟩, some ⟨true⟩, some ⟨true, true⟩, some ⟨false⟩, some ⟨none, []⟩⟩

/-- An initialized engine holding every capability, id counter at 1. -/
def pFull : Protocol := ⟨1, some capsFull⟩

/-- The handshake response line of the spec scenario. -/
def handshakeLine : String :=
  "\x7b\"jsonrpc\":\"2.0\",\"id\":0,\"result\":\x7b\"protocolVersion\":\"0\",\"capabilities\":\x7b\"tools\":\x7b\"supportsStreaming\":false\x7d\x7d,\"serverInfo\":\x7b\"name\":\"x\",\"version\":\"1\"\x7d\x7d\x7d"

/-- The wire line the initialize request serializes to (version 0). -/
def initRequestLine : String :=
  "\x7b\"jsonrpc\":\"2.0\",\"id\":0,\"method\":\"initialize\",\"params\":\x7b\"protocolVersion\":\"0\",\"capabilities\":\x7b\x7d,\"clientInfo\":\x7b\"name\":\"test\",\"version\":\"0.1.0\"\x7d\x7d\x7d"

/-- The wire line the tool-call scenario is expected to write. -/
def c3ExpectedRequestLine : String :=
  "\x7b\"jsonrpc\":\"2.0\",\"id\":1,\"method\":\"tools/call\",\"params\":\x7b\"name\":\"search_repositories\",\"arguments\":\x7b\"query\":\"rust\"\x7d\x7d\x7d"

/-- A success response whose result has the content-list shape the spec
describes for tool calls. -/
def c3SpecShapedResponseLine : String :=
  "\x7b\"jsonrpc\":\"2.0\",\"id\":1,\"result\":\x7b\"content\":[\x7b\"type\":\"text\",\"text\":\"found it\"\x7d]\x7d\x7d"

/-- A success response whose result has the toolResult shape the code
actually decodes. -/
def c3ToolResultResponseLine : String :=
  "\x7b\"jsonrpc\":\"2.0\",\"id\":1,\"result\":\x7b\"toolResult\":\"found it\"\x7d\x7d"

/-- The structurally valid error envelope of the error scenario. -/
def c4ErrorEnvelopeLine : String :=
  "\x7b\"jsonrpc\":\"2.0\",\"id\":1,\"error\":\x7b\"code\":-32601,\"message\":\"method not found\"\x7d\x7d"

/-- An error envelope arriving during the handshake. -/
def c7ErrorEnvelopeLine : String :=
  "\x7b\"jsonrpc\":\"2.0\",\"id\":0,\"error\":\x7b\"code\":-1,\"message\":\"go away\"\x7d\x7d"

/-- A response line in which both result and error members are present. -/
def c2BothLine : String :=
  "\x7b\"jsonrpc\":\"2.0\",\"id\":1,\"result\":5,\"error\":\x7b\"code\":1,\"message\":\"m\"\x7d\x7d"

/-- A response line in which neither result nor error is present. -/
def c2NeitherLine : String := "\x7b\"jsonrpc\":\"2.0\",\"id\":1\x7d"

/-- Substring occurrence test used to state that an error detail does not
carry the remote message. -/
def listStartsWithChars : List Char → List Char → Bool
  | _, [] => true
  | [], _ :: _ => false
  | c :: cs, d :: ds => c = d && listStartsWithChars cs ds

def listHasSub : List Char → List Char → Bool
  | [], sub => sub.isEmpty
  | c :: cs, sub => listStartsWithChars (c :: cs) sub || listHasSub cs sub

def strHasSub (s sub : String) : Bool :=
  listHasSub s.toList sub.toList

/-- Structural recursion form of the numbered tool listing, used to state
that the rendered indices count up from the starting index. -/
def formatGo : List Tool → Nat → String
  | [], _ => ""
  | t :: rest, s => toString s ++ ". " ++ t.name ++ ": " ++ t.description ++ "\n" ++ formatGo rest (s + 1)

/-- A response object carrying both a result member and an error member. -/
def c2BothKvs : List (String × Json) :=
  [("jsonrpc", Json.str "2.0"), ("id", Json.num 1), ("result", Json.num 5),
   ("error", Json.obj [("code", Json.num 1), ("message", Json.str "m")])]

/-- A response object carrying neither a result member nor an error member. -/
def c2NeitherKvs : List (String × Json) :=
  [("jsonrpc", Json.str "2.0"), ("id", Json.num 1)]

/-! Helper lemmas shared by the claim theorems. -/

lemma send_request_written (t : Transport) (msg : String) :
    ((Protocol.send_request t (.ok msg)).2).written = t.written ++ msg ++ "\n" := by
  rcases t with ⟨w, ls⟩
  cases ls with
  | nil =>
    simp only [Protocol.send_request, Transport.readLine]
    split <;> rfl
  | cons l rest =>
    simp only [Protocol.send_request, Transport.readLine]
    split <;> rfl

lemma call_tool_transport (p : Protocol) (t : Transport) (name : String) (args : Json)
    (h : p.capable .Tools = true) :
    (p.call_tool t name args).2.2 =
      (Protocol.send_request t (.ok (JsonRpcRequest.new p.nextId .CallTool
        (Json.obj [("name", Json.str name), ("arguments", args)])).serialize)).2 := by
  simp only [Protocol.call_tool, Protocol.check_capability, h, if_true, Protocol.next_id]
  rcases hsr : Protocol.send_request t (.ok (JsonRpcRequest.new p.nextId .CallTool
      (Json.obj [("name", Json.str name), ("arguments", args)])).serialize) with ⟨res, t1⟩
  cases res with
  | error e => rfl
  | ok resp =>
    cases hr : resp.response with
    | Success result =>
      simp only [hr]
      split <;> rfl
    | Error err => simp [hr]

lemma except_bind_ok {A B : Type} (a : A) (f : A → Except String B) :
    (Except.ok a >>= f) = f a := rfl

lemma except_bind_error {A B : Type} (e : String) (f : A → Except String B) :
    ((Except.error e : Except String A) >>= f) = Except.error e := rfl

lemma bindError {A B : Type} (x : Except String A) (f : A → Except String B)
    (h : ∀ a, ∃ e, f a = Except.error e) : ∃ e, (x >>= f) = Except.error e := by
  cases x with
  | error e => exact ⟨e, rfl⟩
  | ok a => exact h a

lemma idsFrom_eq_range' : ∀ (k : Nat) (p : Protocol), p.nextId + k ≤ 2 ^ 64 →
    p.idsFrom k = List.range' p.nextId k := by
  intro k
  induction k with
  | zero => intro p _; rfl
  | succ n ih =>
    intro p h
    show (let (id, p1) := p.next_id; id :: p1.idsFrom n) = _
    rw [List.range'_succ]
    simp only [Protocol.next_id]
    congr 1
    cases n with
    | zero => rfl
    | succ m =>
      have hlt : p.nextId + 1 < 2 ^ 64 := by omega
      have hmod : (p.nextId + 1) % 2 ^ 64 = p.nextId + 1 := Nat.mod_eq_of_lt hlt
      have harg : (Protocol.mk ((p.nextId + 1) % 2 ^ 64) p.capabilities).nextId + (m + 1)
          ≤ 2 ^ 64 := by
        show (p.nextId + 1) % 2 ^ 64 + (m + 1) ≤ 2 ^ 64
        rw [hmod]; omega
      have h2 := ih ⟨(p.nextId + 1) % 2 ^ 64, p.capabilities⟩ harg
      rw [hmod] at h2 ⊢
      exact h2

lemma foldl_append_str (l : List String) : ∀ (a b : String),
    List.foldl (fun r s => r ++ s) (a ++ b) l = a ++ List.foldl (fun r s => r ++ s) b l := by
  induction l with
  | nil => intro a b; rfl
  | cons x xs ih =>
    intro a b
    simp only [List.foldl_cons]
    rw [String.append_assoc]
    exact ih a (b ++ x)

lemma strjoin_cons (a : String) (l : List String) :
    String.join (a :: l) = a ++ String.join l := by
  show List.foldl (fun r s => r ++ s) ("" ++ a) l = a ++ List.foldl (fun r s => r ++ s) "" l
  have h1 : ("" ++ a : String) = a ++ "" := by simp
  rw [h1, foldl_append_str]

lemma formatAux : ∀ (tools : List Tool) (i s : Nat),
    String.join ((List.enumFrom i tools).map
      (fun it => toString (it.1 + s) ++ ". " ++ it.2.name ++ ": " ++ it.2.description ++ "\n"))
      = formatGo tools (i + s) := by
  intro tools
  induction tools with
  | nil => intro i s; rfl
  | cons t rest ih =>
    intro i s
    rw [List.enumFrom_cons, List.map_cons, strjoin_cons, ih (i + 1) s]
    have h2 : i + 1 + s = (i + s) + 1 := by omega
    rw [h2]
    rfl

lemma format_eq_formatGo (tools : List Tool) (s : Nat) :
    format_tools_for_prompt tools s = formatGo tools s := by
  have h := formatAux tools 0 s
  simpa [format_tools_for_prompt, List.enum] using h

/-- C1: every gated engine operation invoked while its required
capability is absent from the stored Capabilities fails with
CapabilityError and performs no I/O: the engine state and the transport
are returned unchanged, so no bytes were written. -/
theorem capability_gate_no_io : ∀ (p : Protocol) (t : Transport) (name : String)
    (args : Json) (uris : List String),
    (p.capable .Tools = false → p.call_tool t name args =
      (.error (.CapabilityError "Server does not support Tools capability"), p, t))
    ∧ (p.capable .Tools = false → p.list_tools t =
      (.error (.CapabilityError "Server does not support Tools capability"), p, t))
    ∧ (p.capable .Resources = false → p.list_resources t =
      (.error (.CapabilityError "Server does not support Resources capability"), p, t))
    ∧ (p.capable .Resources = false → p.read_resources t uris =
      (.error (.CapabilityError "Server does not support Resources capability"), p, t))
    ∧ (p.capable .Prompts = false → p.list_prompts t =
      (.error (.CapabilityError "Server does not support Prompts capability"), p, t)) := by
  intro p t name args uris
  refine ⟨?_, ?_, ?_, ?_, ?_⟩ <;> intro h <;>
    simp [Protocol.call_tool, Protocol.list_tools, Protocol.list_resources,
      Protocol.read_resources, Protocol.list_prompts, Protocol.check_capability, h,
      ServerCapability.debugStr]

/-- Witness for C1: the five gated operations on a fresh engine with no
stored capabilities all fail with CapabilityError, leaving the transport
untouched. -/
theorem capability_gate_no_io_witness :
    (pNone.call_tool tEmpty "x" Json.null =
      (.error (.CapabilityError "Server does not support Tools capability"), pNone, tEmpty))
    ∧ (pNone.list_tools tEmpty =
      (.error (.CapabilityError "Server does not support Tools capability"), pNone, tEmpty))
    ∧ (pNone.list_resources tEmpty =
      (.error (.CapabilityError "Server does not support Resources capability"), pNone, tEmpty))
    ∧ (pNone.read_resources tEmpty [] =
      (.error (.CapabilityError "Server does not support Resources capability"), pNone, tEmpty))
    ∧ (pNone.list_prompts tEmpty =
      (.error (.CapabilityError "Server does not support Prompts capability"), pNone, tEmpty)) :=
  ⟨(capability_gate_no_io pNone tEmpty "x" Json.null []).1 rfl,
   (capability_gate_no_io pNone tEmpty "x" Json.null []).2.1 rfl,
   (capability_gate_no_io pNone tEmpty "x" Json.null []).2.2.1 rfl,
   (capability_gate_no_io pNone tEmpty "x" Json.null []).2.2.2.1 rfl,
   (capability_gate_no_io pNone tEmpty "x" Json.null []).2.2.2.2 rfl⟩

/-- C2 counterexample: a response line in which both the result and the
error members are present decodes successfully (the untagged union
resolves it to the Success variant), contradicting the claim that such a
line produces a decode error. -/
theorem response_envelope_both_present_accepted :
    decodeResponseLine c2BothLine =
      .ok ⟨"2.0", 1, .Success (Json.num 5)⟩ := rfl

/-- C2 amended: a line with neither result nor error is rejected with a
decode error, but a line containing a result member decodes to the
Success variant even when an error member is also present. -/
theorem response_envelope_ambiguity :
    (∀ (kvs : List (String × Json)),
      getField kvs "result" = none → getField kvs "error" = none →
      ∃ e, JsonRpcResponse.fromJson (Json.obj kvs) = .error e)
    ∧ (∀ (kvs : List (String × Json)) (s : String) (n : Int) (v : Json),
        getField kvs "jsonrpc" = some (Json.str s) →
        getField kvs "id" = some (Json.num n) →
        0 ≤ n → n < 2 ^ 64 →
        getField kvs "result" = some v →
        JsonRpcResponse.fromJson (Json.obj kvs) = .ok ⟨s, n.toNat, .Success v⟩) := by
  constructor
  · intro kvs hr he
    have hrc : ResponseContent.fromJson kvs =
        .error "data did not match any variant of untagged enum ResponseContent" := by
      simp [ResponseContent.fromJson, hr, he]
    simp only [JsonRpcResponse.fromJson, asObj, except_bind_ok]
    apply bindError; intro jr
    apply bindError; intro s'
    apply bindError; intro i
    apply bindError; intro idn
    rw [hrc]
    exact ⟨_, rfl⟩
  · intro kvs s n v hj hi h0 hlt hr
    have h1 : reqField kvs "jsonrpc" = .ok (Json.str s) := by simp [reqField, hj]
    have h2 : reqField kvs "id" = .ok (Json.num n) := by simp [reqField, hi]
    have h3 : asU64 (Json.num n) = .ok n.toNat := by
      show (if 0 ≤ n ∧ n < 2 ^ 64 then Except.ok n.toNat
        else Except.error "u64 out of range") = Except.ok n.toNat
      rw [if_pos ⟨h0, hlt⟩]
    have h4 : ResponseContent.fromJson kvs = .ok (.Success v) := by
      simp [ResponseContent.fromJson, hr]
    simp [JsonRpcResponse.fromJson, asObj, h1, h2, h3, h4, asStr, except_bind_ok]

/-- Witness for C2 amended: the neither-present object is rejected and
the both-present object resolves to Success. -/
theorem response_envelope_ambiguity_witness :
    (∃ e, JsonRpcResponse.fromJson (Json.obj c2NeitherKvs) = .error e)
    ∧ JsonRpcResponse.fromJson (Json.obj c2BothKvs) =
        .ok ⟨"2.0", (1 : Int).toNat, .Success (Json.num 5)⟩ :=
  ⟨response_envelope_ambiguity.1 c2NeitherKvs rfl rfl,
   response_envelope_ambiguity.2 c2BothKvs "2.0" 1 (Json.num 5) rfl rfl
     (by norm_num) (by norm_num) rfl⟩

/-- C3 counterexample: on the Tools-capable engine with id counter 1, a
success response whose result has the content-list shape the spec
describes is rejected by the decoder (the code requires a toolResult
member), so the call does not return the text item. -/
theorem call_tool_spec_result_shape_rejected :
    (pTools1.call_tool ⟨"", [c3SpecShapedResponseLine]⟩ "search_repositories"
      (Json.obj [("query", Json.str "rust")])).1 =
      .error (.ToolError "Failed to parse tool response: missing field toolResult") := rfl

/-- C3 amended: the call writes exactly one line equal to the expected
tools/call request; given a success response whose result carries a
toolResult member the call returns that value unaltered, while the
spec-shaped content-list result is rejected with a ToolError. -/
theorem call_tool_wire_line : ∀ (w : String) (lines : List String),
    ((pTools1.call_tool ⟨w, lines⟩ "search_repositories"
        (Json.obj [("query", Json.str "rust")])).2.2.written
      = w ++ c3ExpectedRequestLine ++ "\n")
    ∧ (lines = [c3ToolResultResponseLine] →
        (pTools1.call_tool ⟨w, lines⟩ "search_repositories"
          (Json.obj [("query", Json.str "rust")])).1 = .ok ⟨Json.str "found it"⟩)
    ∧ (lines = [c3SpecShapedResponseLine] →
        (pTools1.call_tool ⟨w, lines⟩ "search_repositories"
          (Json.obj [("query", Json.str "rust")])).1 =
          .error (.ToolError "Failed to parse tool response: missing field toolResult")) := by
  intro w lines
  refine ⟨?_, ?_, ?_⟩
  · rw [call_tool_transport pTools1 ⟨w, lines⟩ "search_repositories"
      (Json.obj [("query", Json.str "rust")]) rfl, send_request_written]
    rfl
  · rintro rfl; rfl
  · rintro rfl; rfl

/-- Witness for C3 amended: with the toolResult-shaped response queued,
the exact request line is written and the raw value is returned. -/
theorem call_tool_wire_line_witness :
    ((pTools1.call_tool ⟨"", [c3ToolResultResponseLine]⟩ "search_repositories"
        (Json.obj [("query", Json.str "rust")])).2.2.written
      = "" ++ c3ExpectedRequestLine ++ "\n")
    ∧ ((pTools1.call_tool ⟨"", [c3ToolResultResponseLine]⟩ "search_repositories"
        (Json.obj [("query", Json.str "rust")])).1 = .ok ⟨Json.str "found it"⟩) :=
  ⟨(call_tool_wire_line "" [c3ToolResultResponseLine]).1,
   (call_tool_wire_line "" [c3ToolResultResponseLine]).2.1 rfl⟩

/-- C4 counterexample: on the fully capable engine, the error envelope
carrying the remote message method not found yields a ToolError whose
detail string is the fixed text Failed to call tool, which does not
contain the remote message. -/
theorem error_envelope_message_dropped :
    ((pFull.call_tool ⟨"", [c4ErrorEnvelopeLine]⟩ "x" (Json.obj [])).1 =
      .error (.ToolError "Failed to call tool"))
    ∧ strHasSub "Failed to call tool" "method not found" = false :=
  ⟨rfl, rfl⟩

/-- C4 amended: on any structurally valid error envelope, each gated
operation returns its family's typed error, but the detail string is a
fixed per-operation message that does not carry the remote error
message. -/
theorem error_envelope_typed_errors : ∀ (w line : String) (rest : List String)
    (resp : JsonRpcResponse) (err : JsonRpcError) (p : Protocol)
    (name : String) (args : Json) (uris : List String),
    decodeResponseLine line = .ok resp →
    resp.response = .Error err →
    (p.capable .Tools = true →
      (p.call_tool ⟨w, line :: rest⟩ name args).1 = .error (.ToolError "Failed to call tool"))
    ∧ (p.capable .Tools = true →
      (p.list_tools ⟨w, line :: rest⟩).1 = .error (.ToolError "Failed to list tools"))
    ∧ (p.capable .Resources = true →
      (p.list_resources ⟨w, line :: rest⟩).1 = .error (.ResourceError "Failed to list resources"))
    ∧ (p.capable .Resources = true →
      (p.read_resources ⟨w, line :: rest⟩ uris).1 =
        .error (.ResourceError "Failed to read resources"))
    ∧ (p.capable .Prompts = true →
      (p.list_prompts ⟨w, line :: rest⟩).1 = .error (.PromptError "Failed to list prompts")) := by
  intro w line rest resp err p name args uris hd hr
  refine ⟨?_, ?_, ?_, ?_, ?_⟩ <;> intro hcap <;>
    simp [Protocol.call_tool, Protocol.list_tools, Protocol.list_resources,
      Protocol.read_resources, Protocol.list_prompts, Protocol.check_capability, hcap,
      Protocol.send_request, Transport.readLine, hd, hr]

/-- Witness for C4 amended: the concrete method-not-found envelope
produces the fixed ToolError and PromptError details. -/
theorem error_envelope_typed_errors_witness :
    ((pFull.call_tool ⟨"", [c4ErrorEnvelopeLine]⟩ "x" (Json.obj [])).1 =
      .error (.ToolError "Failed to call tool"))
    ∧ ((pFull.list_prompts ⟨"", [c4ErrorEnvelopeLine]⟩).1 =
      .error (.PromptError "Failed to list prompts")) :=
  ⟨(error_envelope_typed_errors "" c4ErrorEnvelopeLine []
      ⟨"2.0", 1, .Error ⟨-32601, "method not found", none⟩⟩
      ⟨-32601, "method not found", none⟩ pFull "x" (Json.obj []) [] rfl rfl).1 rfl,
   (error_envelope_typed_errors "" c4ErrorEnvelopeLine []
      ⟨"2.0", 1, .Error ⟨-32601, "method not found", none⟩⟩
      ⟨-32601, "method not found", none⟩ pFull "x" (Json.obj []) [] rfl rfl).2.2.2.2 rfl⟩

/-- C5: from a fresh engine whose counter starts at 0, any sequence of k
next_id calls with k within the u64 range yields a strictly increasing
id sequence starting at 0, so no id is ever reused. -/
theorem next_id_strictly_increasing : ∀ (k : Nat), k ≤ 2 ^ 64 →
    List.Pairwise (· < ·) (pNone.idsFrom k) ∧ (0 < k → (pNone.idsFrom k).head? = some 0) := by
  intro k hk
  have h0 : pNone.idsFrom k = List.range' 0 k :=
    idsFrom_eq_range' k pNone (by simpa [pNone] using hk)
  rw [h0]
  constructor
  · exact List.pairwise_lt_range' 0 k
  · intro hpos
    cases k with
    | zero => omega
    | succ m => rw [List.range'_succ]; rfl

/-- Witness for C5: three successive allocations are strictly increasing
and begin with id 0. -/
theorem next_id_strictly_increasing_witness :
    List.Pairwise (· < ·) (pNone.idsFrom 3) ∧ (pNone.idsFrom 3).head? = some 0 :=
  ⟨(next_id_strictly_increasing 3 (by norm_num)).1,
   (next_id_strictly_increasing 3 (by norm_num)).2 (by norm_num)⟩

/-- C6: construction against the scenario handshake line succeeds with
Tools reported present and Prompts absent; in general capable is false
for every capability before a Capabilities record is stored, and
afterwards reports exactly the presence of the corresponding optional
field. -/
theorem handshake_capable_reporting :
    (Protocol.new "0" [handshakeLine] = .ok (pTools1, ⟨initRequestLine ++ "\n", []⟩))
    ∧ pTools1.capable .Tools = true
    ∧ pTools1.capable .Prompts = false
    ∧ (∀ (p : Protocol), p.capabilities = none → ∀ c, p.capable c = false)
    ∧ (∀ (p : Protocol) (caps : ServerCapabilities), p.capabilities = some caps →
        p.capable .Experimental = caps.experimental.isSome
        ∧ p.capable .Logging = caps.logging.isSome
        ∧ p.capable .Prompts = caps.prompts.isSome
        ∧ p.capable .Resources = caps.resources.isSome
        ∧ p.capable .Tools = caps.tools.isSome
        ∧ p.capable .Sampling = caps.sampling.isSome) := by
  refine ⟨rfl, rfl, rfl, ?_, ?_⟩
  · intro p h c
    cases c <;> simp [Protocol.capable, h]
  · intro p caps h
    refine ⟨?_, ?_, ?_, ?_, ?_, ?_⟩ <;> simp [Protocol.capable, h]

/-- Witness for C6: the uninitialized engine reports Tools absent, and
the initialized scenario engine reports Tools exactly as the stored
field presence. -/
theorem handshake_capable_reporting_witness :
    pNone.capable .Tools = false ∧ pTools1.capable .Tools = capsTools.tools.isSome :=
  ⟨handshake_capable_reporting.2.2.2.1 pNone rfl .Tools,
   (handshake_capable_reporting.2.2.2.2 pTools1 capsTools rfl).2.2.2.2.1⟩

/-- C7 counterexample: a handshake response line that does not parse as a
response envelope makes construction fail with ProtocolError, not with
InitializationFailed as the claim states. -/
theorem init_bad_line_gives_protocol_error :
    Protocol.new "0" ["not json"] =
      .error (.ProtocolError "Failed to parse response: expected null") := rfl

/-- C7 amended: construction fails and returns no engine in every
non-transport handshake failure; the error kind is InitializationFailed
for an error envelope or a success payload that fails to decode, while a
line that fails to parse as a response envelope yields ProtocolError. -/
theorem init_failure_kinds : ∀ (version line : String) (rest : List String),
    (∀ (resp : JsonRpcResponse) (err : JsonRpcError),
      decodeResponseLine line = .ok resp → resp.response = .Error err →
      Protocol.new version (line :: rest) =
        .error (.InitializationFailed "Initialization failed"))
    ∧ (∀ (resp : JsonRpcResponse) (r : Json) (e : String),
      decodeResponseLine line = .ok resp → resp.response = .Success r →
      InitializeResponse.fromJson r = .error e →
      Protocol.new version (line :: rest) = .error (.InitializationFailed e))
    ∧ (∀ (e : String), decodeResponseLine line = .error e →
      Protocol.new version (line :: rest) =
        .error (.ProtocolError ("Failed to parse response: " ++ e))) := by
  intro version line rest
  refine ⟨?_, ?_, ?_⟩
  · intro resp err hd hr
    simp [Protocol.new, Protocol.initialize, Protocol.send_request, Transport.readLine,
      hd, hr]
  · intro resp r e hd hr hf
    simp [Protocol.new, Protocol.initialize, Protocol.send_request, Transport.readLine,
      hd, hr, hf]
  · intro e hd
    simp [Protocol.new, Protocol.initialize, Protocol.send_request, Transport.readLine, hd]

/-- Witness for C7 amended: the error envelope yields
InitializationFailed and the unparsable line yields ProtocolError; both
fail construction. -/
theorem init_failure_kinds_witness :
    (Protocol.new "0" [c7ErrorEnvelopeLine] =
      .error (.InitializationFailed "Initialization failed"))
    ∧ (Protocol.new "0" ["not json"] =
      .error (.ProtocolError ("Failed to parse response: " ++ "expected null"))) :=
  ⟨(init_failure_kinds "0" c7ErrorEnvelopeLine []).1
      ⟨"2.0", 0, .Error ⟨-1, "go away", none⟩⟩ ⟨-1, "go away", none⟩ rfl rfl,
   (init_failure_kinds "0" "not json" []).2.2 "expected null" rfl⟩

/-- C8: send_request serializes the request before touching the
transport; when serialization fails the call returns SerializationError
with the transport unchanged (no bytes written, no line consumed), and
only in the success case are the message bytes and newline written. -/
theorem send_request_serialization_first : ∀ (e : String) (t : Transport) (msg : String),
    Protocol.send_request t (.error e) = (.error (.SerializationError e), t)
    ∧ ((Protocol.send_request t (.ok msg)).2).written = t.written ++ msg ++ "\n" := by
  intro e t msg
  exact ⟨rfl, send_request_written t msg⟩

/-- C9: get_protocols with a requested id list returns every stored
protocol when some requested id is a key of client_tools and the empty
list otherwise, never a proper non-empty subset, because the filter
predicate ignores the enumerated element. -/
theorem get_protocols_all_or_nothing : ∀ (m : ProtocolManager) (ids : List String),
    m.get_protocols (some ids) =
      if ids.any (fun id => mapContainsKey m.client_tools id) then m.clients else [] := by
  intro m ids
  cases h : ids.any (fun id => mapContainsKey m.client_tools id) with
  | true =>
    simp only [ProtocolManager.get_protocols, h, if_true, List.filter_true]
    exact List.enum_map_snd m.clients
  | false =>
    simp [ProtocolManager.get_protocols, h]

/-- C10: get_tools_for_clients renders the selected tools with display
indices starting at 1 and is unaffected by the manager's running
tool_counter, while add_protocol formats its per-engine string at the
current counter; for a non-empty selection the listing begins with index
1 and continues counting up. -/
theorem get_tools_display_index : ∀ (m : ProtocolManager) (c : Nat)
    (ids : Option (List String)) (cid : String) (client : Protocol)
    (fetched : List Tool) (names : Option (List String)) (tl : Tool) (rest2 : List Tool),
    (({ m with tool_counter := c } : ProtocolManager).get_tools_for_clients ids
       = m.get_tools_for_clients ids)
    ∧ (m.get_tools_for_clients ids = format_tools_for_prompt (m.selectedTools ids) 1)
    ∧ ((m.add_protocol cid client fetched names).formatted_tools
        = m.formatted_tools ++ [format_tools_for_prompt
            (match names with
             | some ns => filter_tools_by_name fetched ns
             | none => fetched) m.tool_counter])
    ∧ (format_tools_for_prompt (tl :: rest2) 1
        = "1. " ++ tl.name ++ ": " ++ tl.description ++ "\n"
          ++ format_tools_for_prompt rest2 2) := by
  intro m c ids cid client fetched names tl rest2
  refine ⟨rfl, rfl, rfl, ?_⟩
  rw [format_eq_formatGo, format_eq_formatGo]
  rfl
